import Mathlib

/-!
Verification development for a compile-time-configurable C logging facade
(`logging_levels.h`, `logging_stack.h`, `logging.c` and its variants).

The preprocessor machinery is shallowly embedded: each build-time
configuration symbol becomes a field of `Config`, each macro becomes a Lean
function of the configuration and the call site, and an expanded active call
is represented by the printf-style format string together with the ordered
list of forwarded arguments.  The process-wide sink pointer `log_function`
becomes an explicit state value threaded through the operations.
-/

namespace Logging

/-- Severity levels from logging_levels.h:
LOG_NONE 0, LOG_ERROR 1, LOG_WARN 2, LOG_INFO 3, LOG_DEBUG 4. -/
inductive Level
  | NONE
  | ERROR
  | WARN
  | INFO
  | DEBUG
deriving DecidableEq, Repr

/-- Numeric value of each severity constant, as in logging_levels.h. -/
def Level.val : Level → Nat
  | .NONE => 0
  | .ERROR => 1
  | .WARN => 2
  | .INFO => 3
  | .DEBUG => 4

/-- logging_levels.h: `#define LOG_NONE 0`. -/
def LOG_NONE : Int := 0

/-- logging_levels.h: `#define LOG_ERROR 1`. -/
def LOG_ERROR : Int := 1

/-- logging_levels.h: `#define LOG_WARN 2`. -/
def LOG_WARN : Int := 2

/-- logging_levels.h: `#define LOG_INFO 3`. -/
def LOG_INFO : Int := 3

/-- logging_levels.h: `#define LOG_DEBUG 4`. -/
def LOG_DEBUG : Int := 4

/-- The build-time configuration surface consumed by logging_stack.h:
the threshold, the optional module name, the two file-display toggles,
the function-name toggle and the global kill switch. -/
structure Config where
  LIBRARY_LOG_LEVEL : Level
  LIBRARY_LOG_NAME : Option String
  LIBRARY_PRINT_FILE_PATH : Bool
  LIBRARY_PRINT_FILENAME_ONLY : Bool
  LIBRARY_PRINT_FUNCTION_NAME : Bool
  DISABLE_LOGGING : Bool
deriving DecidableEq, Repr

/-- A call site: the values the compiler supplies for the source file,
the enclosing function name and the source line at a macro expansion. -/
structure CallSite where
  file : String
  func : String
  line : Nat
deriving DecidableEq, Repr

/-- One forwarded variadic argument of a sink call. -/
inductive LogArg
  | str : String → LogArg
  | int : Int → LogArg
deriving DecidableEq, Repr

/-- logging_stack.h lines 39-41: `LOGGING_LINE_STRING` is the stringized
value of the line number, a decimal string literal. -/
def LOGGING_LINE_STRING (line : Nat) : String := toString line

/-- logging_stack.h line 47 (non-Windows branch):
`strrchr(file, '/') ? strrchr(file, '/') + 1 : file` — the component after
the last slash when the path contains one, otherwise the whole path. -/
def LOGGING_FILENAME (file : String) : String :=
  match (file.split (fun c => c = '/')).getLast? with
  | some s => s
  | Option.none => file

/-- logging_stack.h lines 67-92: the metadata format literal, chosen by
whether LIBRARY_LOG_NAME is defined and which of the two file toggles is
set (LIBRARY_PRINT_FILE_PATH takes precedence over
LIBRARY_PRINT_FILENAME_ONLY, matching the `#ifdef`/`#elif` order). -/
def LOG_METADATA_FMT (LIBRARY_LOG_NAME : Option String)
    (LIBRARY_PRINT_FILE_PATH LIBRARY_PRINT_FILENAME_ONLY : Bool)
    (file : String) : String :=
  match LIBRARY_LOG_NAME with
  | some name =>
    if LIBRARY_PRINT_FILE_PATH then "[" ++ name ++ "] (" ++ file ++ ") "
    else if LIBRARY_PRINT_FILENAME_ONLY then "[" ++ name ++ "] (%s) "
    else "[" ++ name ++ "] "
  | Option.none =>
    if LIBRARY_PRINT_FILE_PATH then "(" ++ file ++ ") "
    else if LIBRARY_PRINT_FILENAME_ONLY then "(%s) "
    else ""

/-- logging_stack.h lines 67-92: the runtime arguments contributed by the
metadata block — only the filename-only configuration adds one
(`LOG_METADATA_ARG` is `, LOGGING_FILENAME` there, empty otherwise). -/
def LOG_METADATA_ARG (LIBRARY_PRINT_FILE_PATH LIBRARY_PRINT_FILENAME_ONLY : Bool)
    (file : String) : List LogArg :=
  if LIBRARY_PRINT_FILE_PATH then []
  else if LIBRARY_PRINT_FILENAME_ONLY then [LogArg.str (LOGGING_FILENAME file)]
  else []

/-- logging_stack.h lines 95-101: the location-suffix format literal.
The line number is rendered through a `%s` conversion in both branches. -/
def FUNCTION_INFO_FMT (LIBRARY_PRINT_FUNCTION_NAME : Bool) : String :=
  if LIBRARY_PRINT_FUNCTION_NAME then "(%s):%s - " else ":%s - "

/-- logging_stack.h lines 95-101: the runtime arguments contributed by the
location suffix — the function name (when enabled) followed by the
stringized line number. -/
def FUNCTION_INFO_ARG (LIBRARY_PRINT_FUNCTION_NAME : Bool) (cs : CallSite) :
    List LogArg :=
  if LIBRARY_PRINT_FUNCTION_NAME then
    [LogArg.str cs.func, LogArg.str (LOGGING_LINE_STRING cs.line)]
  else
    [LogArg.str (LOGGING_LINE_STRING cs.line)]

/-- The fixed-width severity tag literal each active macro prepends
(logging_stack.h lines 132-158). NONE has no entry point and no tag. -/
def severityTag : Level → String
  | .NONE => ""
  | .ERROR => "[ERROR] "
  | .WARN => "[WARN]  "
  | .INFO => "[INFO]  "
  | .DEBUG => "[DEBUG] "

/-- A sink pointer value: one of the application's sink functions
(identified by an element of σ) or the library's built-in no-op sink
`default_log_function`. -/
inductive SinkPtr (σ : Type)
  | user : σ → SinkPtr σ
  | defaultSink : SinkPtr σ
deriving DecidableEq, Repr

/-- Process-wide mutable state of logging.c: the sink pointer
`log_function`; `Option.none` models the NULL pointer. -/
structure LogState (σ : Type) where
  log_function : Option (SinkPtr σ)
deriving DecidableEq, Repr

/-- logging.c line 12: `int (*log_function)(const char *message, ...) = NULL;` -/
def LogState.initial (σ : Type) : LogState σ := ⟨Option.none⟩

/-- The composed format string and forwarded argument list handed to the
sink by one active macro expansion. -/
structure SinkCall where
  message : String
  args : List LogArg
deriving DecidableEq, Repr

/-- One indirect call performed through the sink pointer: the pointer value
being called (`Option.none` means a call through NULL) and the call payload. -/
structure Invocation (σ : Type) where
  sink : Option (SinkPtr σ)
  call : SinkCall
deriving DecidableEq, Repr

variable {σ : Type}

/-- logging_stack.h lines 113-117: with DISABLE_LOGGING undefined,
`SdkLog(message, ...)` calls through the global pointer `log_function`
with no null check; with DISABLE_LOGGING defined it expands to nothing.
The result lists the indirect calls the expansion performs. -/
def SdkLog (c : Config) (s : LogState σ) (message : String) (args : List LogArg) :
    List (Invocation σ) :=
  if c.DISABLE_LOGGING then [] else [⟨s.log_function, ⟨message, args⟩⟩]

/-- The format-string literal of an active macro at severity L:
severity tag, LOG_METADATA_FMT, FUNCTION_INFO_FMT, caller's format,
then the CRLF terminator (logging_stack.h lines 132-158). -/
def composedMessage (c : Config) (L : Level) (cs : CallSite) (message : String) :
    String :=
  severityTag L ++
    LOG_METADATA_FMT c.LIBRARY_LOG_NAME c.LIBRARY_PRINT_FILE_PATH
      c.LIBRARY_PRINT_FILENAME_ONLY cs.file ++
    FUNCTION_INFO_FMT c.LIBRARY_PRINT_FUNCTION_NAME ++ message ++ "\r\n"

/-- The forwarded argument list of an active macro:
LOG_METADATA_ARG, then FUNCTION_INFO_ARG, then the caller's variadic
arguments (logging_stack.h lines 132-158). -/
def composedArgs (c : Config) (cs : CallSite) (args : List LogArg) : List LogArg :=
  LOG_METADATA_ARG c.LIBRARY_PRINT_FILE_PATH c.LIBRARY_PRINT_FILENAME_ONLY cs.file ++
    FUNCTION_INFO_ARG c.LIBRARY_PRINT_FUNCTION_NAME cs ++ args

/-- LogError: a SdkLog call in the LOG_DEBUG, LOG_INFO, LOG_WARN and
LOG_ERROR branches of logging_stack.h lines 132-167, empty in the
LOG_NONE branch. -/
def LogError (c : Config) (s : LogState σ) (cs : CallSite) (message : String)
    (args : List LogArg) : List (Invocation σ) :=
  match c.LIBRARY_LOG_LEVEL with
  | .DEBUG | .INFO | .WARN | .ERROR =>
      SdkLog c s (composedMessage c .ERROR cs message) (composedArgs c cs args)
  | .NONE => []

/-- LogWarn: a SdkLog call in the LOG_DEBUG, LOG_INFO and LOG_WARN
branches, empty in the LOG_ERROR and LOG_NONE branches. -/
def LogWarn (c : Config) (s : LogState σ) (cs : CallSite) (message : String)
    (args : List LogArg) : List (Invocation σ) :=
  match c.LIBRARY_LOG_LEVEL with
  | .DEBUG | .INFO | .WARN =>
      SdkLog c s (composedMessage c .WARN cs message) (composedArgs c cs args)
  | .ERROR | .NONE => []

/-- LogInfo: a SdkLog call in the LOG_DEBUG and LOG_INFO branches, empty
in the LOG_WARN, LOG_ERROR and LOG_NONE branches. -/
def LogInfo (c : Config) (s : LogState σ) (cs : CallSite) (message : String)
    (args : List LogArg) : List (Invocation σ) :=
  match c.LIBRARY_LOG_LEVEL with
  | .DEBUG | .INFO =>
      SdkLog c s (composedMessage c .INFO cs message) (composedArgs c cs args)
  | .WARN | .ERROR | .NONE => []

/-- LogDebug: a SdkLog call in the LOG_DEBUG branch only. -/
def LogDebug (c : Config) (s : LogState σ) (cs : CallSite) (message : String)
    (args : List LogArg) : List (Invocation σ) :=
  match c.LIBRARY_LOG_LEVEL with
  | .DEBUG =>
      SdkLog c s (composedMessage c .DEBUG cs message) (composedArgs c cs args)
  | .INFO | .WARN | .ERROR | .NONE => []

/-- Dispatch to the entry point named by the call level; the facade has no
entry point at severity NONE. -/
def logEntry (c : Config) (s : LogState σ) (L : Level) (cs : CallSite)
    (message : String) (args : List LogArg) : List (Invocation σ) :=
  match L with
  | .ERROR => LogError c s cs message args
  | .WARN => LogWarn c s cs message args
  | .INFO => LogInfo c s cs message args
  | .DEBUG => LogDebug c s cs message args
  | .NONE => []

/-- logging.c lines 14-18: `default_log_function` ignores its arguments,
performs no observable action (empty output trace) and returns status 0. -/
def default_log_function : String → List LogArg → Int × List String :=
  fun _ _ => (0, [])

/-- logging.c lines 20-29 (single-argument variant of Logging_Init): a
non-null argument becomes the sink, a NULL argument binds the built-in
no-op sink. -/
def Logging_Init (log_func : Option σ) (s : LogState σ) : LogState σ :=
  match log_func with
  | some f => { s with log_function := some (SinkPtr.user f) }
  | Option.none => { s with log_function := some SinkPtr.defaultSink }

/-- logging.h: `#define LOGGING_VERSION "1.1.0"`. -/
def LOGGING_VERSION : String := "1.1.0"

/-- logging.c: Logging_GetVersion returns the static version string. -/
def Logging_GetVersion : String := LOGGING_VERSION

/-- The `logging.c` variant with the extra queries: the `switch` of
Logging_GetLoggingLevelName over the five level constants with the
`default` branch returning "UNKNOWN_LEVEL". -/
def Logging_GetLoggingLevelName (level : Int) : String :=
  if level = LOG_NONE then "LOG_NONE"
  else if level = LOG_ERROR then "LOG_ERROR"
  else if level = LOG_WARN then "LOG_WARN"
  else if level = LOG_INFO then "LOG_INFO"
  else if level = LOG_DEBUG then "LOG_DEBUG"
  else "UNKNOWN_LEVEL"

/-- Logging_GetTopLoggingLevel returns the compile-time threshold constant. -/
def Logging_GetTopLoggingLevel (top : Level) : Int := Int.ofNat top.val

/-- Process-wide state of the runtime-threshold variant: the sink pointer
and the file-scope `static int logging_level = LOG_NONE;`. -/
structure LogState2 (σ : Type) where
  log_function : Option (SinkPtr σ)
  logging_level : Int
deriving DecidableEq, Repr

/-- Initial state of the runtime-threshold variant. -/
def LogState2.initial (σ : Type) : LogState2 σ := ⟨Option.none, LOG_NONE⟩

/-- The two-argument Logging_Init of the runtime-threshold variant. The
parameter `logging_level` shadows the file-scope static of the same name;
both branches of the `if` assign to the (shadowing) parameter, so the
static is never written — the dead local rebinding below mirrors that. -/
def Logging_Init2 (logging_level : Int) (log_func : Option σ) (s : LogState2 σ) :
    LogState2 σ :=
  let log_function : Option (SinkPtr σ) :=
    match log_func with
    | some f => some (SinkPtr.user f)
    | Option.none => some SinkPtr.defaultSink
  let _dead_param_write : Int :=
    if logging_level ≤ LOG_DEBUG then logging_level else LOG_DEBUG
  { log_function := log_function, logging_level := s.logging_level }

/-- The facade operations visible to callers: the two initialization
variants, the read-only queries, and an expansion of a logging macro. -/
inductive Op (σ : Type)
  | init : Option σ → Op σ
  | init2 : Int → Option σ → Op σ
  | getVersion : Op σ
  | getLevelName : Int → Op σ
  | getTopLevel : Op σ
  | logCall : Config → Level → CallSite → String → List LogArg → Op σ

/-- Effect of each operation on the process-wide sink pointer, the one
cell both initialization variants write; queries and macro expansions
only read it. -/
def stepSink : Op σ → Option (SinkPtr σ) → Option (SinkPtr σ)
  | Op.init f, p => (Logging_Init f ⟨p⟩).log_function
  | Op.init2 lvl f, p => (Logging_Init2 lvl f ⟨p, LOG_NONE⟩).log_function
  | Op.getVersion, p => p
  | Op.getLevelName _, p => p
  | Op.getTopLevel, p => p
  | Op.logCall _ _ _ _ _, p => p


/-- A configuration used by several concrete scenarios: threshold INFO,
module name "APP", both file toggles off, function names off, kill
switch off. -/
def cfgInfoAppPlain : Config :=
  ⟨Level.INFO, some "APP", false, false, false, false⟩

/-- C1: for every valid build-time threshold T and every call level L in
ERROR, WARN, INFO, DEBUG (kill switch off), a logging call at L invokes
the sink exactly once iff L is not NONE, T is not NONE and L's numeric
value is at most T's; when the gate fails the entry point expands to
nothing and performs no sink call. -/
theorem C1_monotonic_gating (c : Config) (hkill : c.DISABLE_LOGGING = false)
    (L : Level) (hL : L ≠ Level.NONE) (s : LogState σ) (cs : CallSite)
    (message : String) (args : List LogArg) :
    ((logEntry c s L cs message args).length = 1 ↔
      (L ≠ Level.NONE ∧ c.LIBRARY_LOG_LEVEL ≠ Level.NONE ∧
        L.val ≤ c.LIBRARY_LOG_LEVEL.val)) ∧
    (¬ (L ≠ Level.NONE ∧ c.LIBRARY_LOG_LEVEL ≠ Level.NONE ∧
        L.val ≤ c.LIBRARY_LOG_LEVEL.val) →
      logEntry c s L cs message args = []) := by
  cases L <;> cases hT : c.LIBRARY_LOG_LEVEL <;>
    simp_all [logEntry, LogError, LogWarn, LogInfo, LogDebug, SdkLog, Level.val]

/-- Concrete instance of C1: with threshold INFO, a LogError call performs
exactly one sink invocation. -/
theorem C1_monotonic_gating_witness :
    (logEntry cfgInfoAppPlain (LogState.initial Nat) Level.ERROR
      ⟨"main.c", "main", 7⟩ "x" []).length = 1 :=
  ((C1_monotonic_gating cfgInfoAppPlain rfl Level.ERROR (by decide)
      (LogState.initial Nat) ⟨"main.c", "main", 7⟩ "x" []).1).mpr (by decide)

/-- C7: with DISABLE_LOGGING defined, every entry point at every level
expands to nothing, for every threshold and every prefix configuration. -/
theorem C7_kill_switch (c : Config) (hkill : c.DISABLE_LOGGING = true)
    (s : LogState σ) (L : Level) (cs : CallSite) (message : String)
    (args : List LogArg) :
    logEntry c s L cs message args = [] := by
  cases L <;> cases hT : c.LIBRARY_LOG_LEVEL <;>
    simp_all [logEntry, LogError, LogWarn, LogInfo, LogDebug, SdkLog]

/-- Concrete instance of C7 at threshold DEBUG. -/
theorem C7_kill_switch_witness :
    logEntry ⟨Level.DEBUG, some "APP", true, false, true, true⟩
      (LogState.initial Nat) Level.ERROR ⟨"main.c", "main", 3⟩ "x" [] = [] :=
  C7_kill_switch ⟨Level.DEBUG, some "APP", true, false, true, true⟩ rfl
    (LogState.initial Nat) Level.ERROR ⟨"main.c", "main", 3⟩ "x" []


/-- C2 counterexample: with threshold INFO, module "APP", file path off
and function names off, the ERROR entry point called at line 10 with
format "boom %d" and argument 5 does not hand the sink the line-spliced
message "[ERROR] [APP] :10 - boom %d\r\n" with 5 as the only forwarded
argument. -/
theorem C2_counterexample :
    (LogError cfgInfoAppPlain (LogState.initial Nat) ⟨"main.c", "main", 10⟩
        "boom %d" [LogArg.int 5]).map Invocation.call ≠
      [⟨"[ERROR] [APP] :10 - boom %d\r\n", [LogArg.int 5]⟩] := by
  decide

/-- C2 (amended): in that configuration the ERROR entry point hands the
sink the format string "[ERROR] [APP] :%s - boom %d\r\n" — the line
number is rendered through a "%s" conversion, not spliced into the
literal — with two forwarded arguments: the stringized call-site line
number, then 5. -/
theorem C2_error_expansion (s : LogState σ) (cs : CallSite) :
    (LogError cfgInfoAppPlain s cs "boom %d" [LogArg.int 5]).map Invocation.call =
      [⟨"[ERROR] [APP] :%s - boom %d\r\n",
        [LogArg.str (toString cs.line), LogArg.int 5]⟩] := rfl

/-- Configuration of spec scenario 2: threshold DEBUG, no module name,
file path on, function names on, kill switch off. -/
def cfgDebugFileFunc : Config :=
  ⟨Level.DEBUG, Option.none, true, false, true, false⟩

/-- C3 counterexample: with threshold DEBUG, no module name, file path on
and function names on, the INFO entry point called from line 42 inside
doWork with format "ok" does not hand the sink the message
"[INFO]  (main.c) (%s):42 - ok\r\n" with "doWork" as the only forwarded
argument. -/
theorem C3_counterexample :
    (LogInfo cfgDebugFileFunc (LogState.initial Nat) ⟨"main.c", "doWork", 42⟩
        "ok" []).map Invocation.call ≠
      [⟨"[INFO]  (main.c) (%s):42 - ok\r\n", [LogArg.str "doWork"]⟩] := by
  decide

/-- C3 (amended): in that configuration the INFO entry point hands the
sink the format string "[INFO]  (main.c) (%s):%s - ok\r\n"; the function
name is forwarded as a separate run-time argument (not spliced into the
literal), the stringized line number follows it as a second inserted
argument, and the caller's variadic arguments follow those two, in
order. -/
theorem C3_function_name_argument (s : LogState σ) (fn : String) (line : Nat)
    (args : List LogArg) :
    (LogInfo cfgDebugFileFunc s ⟨"main.c", fn, line⟩ "ok" args).map
        Invocation.call =
      [⟨"[INFO]  (main.c) (%s):%s - ok\r\n",
        LogArg.str fn :: LogArg.str (toString line) :: args⟩] := rfl


/-- C4: for the four combinations of module-name configured or not and
file-path printing on or off (filename-only off), the compile-time
metadata prefix is the exact literal of §4.2: both toggles give the file
path in parentheses directly after the module tag, module-only gives the
bracketed tag with no parentheses, file-only gives the parenthesized
path, neither gives the empty prefix; the four prefixes are pairwise
distinct. -/
theorem C4_metadata_layout (name file : String) :
    (LOG_METADATA_FMT (some name) true false file
        = "[" ++ name ++ "] (" ++ file ++ ") " ∧
      LOG_METADATA_FMT (some name) false false file = "[" ++ name ++ "] " ∧
      LOG_METADATA_FMT Option.none true false file = "(" ++ file ++ ") " ∧
      LOG_METADATA_FMT Option.none false false file = "") ∧
    LOG_METADATA_FMT (some name) true false file
        = LOG_METADATA_FMT (some name) false false file ++ ("(" ++ file ++ ") ") ∧
    (LOG_METADATA_FMT (some name) true false file
        ≠ LOG_METADATA_FMT (some name) false false file ∧
      LOG_METADATA_FMT (some name) true false file
        ≠ LOG_METADATA_FMT Option.none true false file ∧
      LOG_METADATA_FMT (some name) true false file
        ≠ LOG_METADATA_FMT Option.none false false file ∧
      LOG_METADATA_FMT (some name) false false file
        ≠ LOG_METADATA_FMT Option.none true false file ∧
      LOG_METADATA_FMT (some name) false false file
        ≠ LOG_METADATA_FMT Option.none false false file ∧
      LOG_METADATA_FMT Option.none true false file
        ≠ LOG_METADATA_FMT Option.none false false file) := by
  refine ⟨⟨rfl, rfl, rfl, rfl⟩, ?_, ?_, ?_, ?_, ?_, ?_, ?_⟩
  · apply String.ext
    simp [LOG_METADATA_FMT, String.data_append]
  · intro h
    have hlen := congrArg String.length h
    simp [LOG_METADATA_FMT, String.length_append] at hlen
    have e1 : "[".length = 1 := rfl
    have e2 : "] (".length = 3 := rfl
    have e3 : ") ".length = 2 := rfl
    have e4 : "] ".length = 2 := rfl
    have e5 : "(".length = 1 := rfl
    have e6 : "".length = 0 := rfl
    omega
  · intro h
    have hd := congrArg String.data h
    simp [LOG_METADATA_FMT, String.data_append] at hd
  · intro h
    have hlen := congrArg String.length h
    simp [LOG_METADATA_FMT, String.length_append] at hlen
    have e1 : "[".length = 1 := rfl
    have e2 : "] (".length = 3 := rfl
    have e3 : ") ".length = 2 := rfl
    have e4 : "] ".length = 2 := rfl
    have e5 : "(".length = 1 := rfl
    have e6 : "".length = 0 := rfl
    omega
  · intro h
    have hd := congrArg String.data h
    simp [LOG_METADATA_FMT, String.data_append] at hd
  · intro h
    have hlen := congrArg String.length h
    simp [LOG_METADATA_FMT, String.length_append] at hlen
    have e1 : "[".length = 1 := rfl
    have e2 : "] (".length = 3 := rfl
    have e3 : ") ".length = 2 := rfl
    have e4 : "] ".length = 2 := rfl
    have e5 : "(".length = 1 := rfl
    have e6 : "".length = 0 := rfl
    omega
  · intro h
    have hlen := congrArg String.length h
    simp [LOG_METADATA_FMT, String.length_append] at hlen
    have e1 : "[".length = 1 := rfl
    have e2 : "] (".length = 3 := rfl
    have e3 : ") ".length = 2 := rfl
    have e4 : "] ".length = 2 := rfl
    have e5 : "(".length = 1 := rfl
    have e6 : "".length = 0 := rfl
    omega


/-- C5: every Logging_Init call overwrites the sink pointer regardless of
prior state: a non-null argument becomes the active sink and every
subsequently active call invokes exactly that sink exactly once; a NULL
argument binds the built-in no-op sink, which accepts any arguments,
performs no observable action and returns status 0; re-initialization is
last-writer-wins. -/
theorem C5_sink_binding (c : Config) (hkill : c.DISABLE_LOGGING = false)
    (s : LogState σ) (f : Option σ) (message : String) (args : List LogArg) :
    (∀ g, f = some g →
      SdkLog c (Logging_Init f s) message args =
        [⟨some (SinkPtr.user g), ⟨message, args⟩⟩]) ∧
    (f = Option.none →
      SdkLog c (Logging_Init f s) message args =
        [⟨some SinkPtr.defaultSink, ⟨message, args⟩⟩]) ∧
    (∀ f2 : Option σ, Logging_Init f2 (Logging_Init f s) = Logging_Init f2 s) ∧
    default_log_function message args = (0, []) := by
  refine ⟨?_, ?_, ?_, rfl⟩
  · intro g hg
    subst hg
    simp [Logging_Init, SdkLog, hkill]
  · intro hf
    subst hf
    simp [Logging_Init, SdkLog, hkill]
  · intro f2
    cases f2 <;> cases f <;> simp [Logging_Init]

/-- Concrete instance of C5: after Logging_Init with user sink 3, an
active call invokes exactly that sink. -/
theorem C5_sink_binding_witness :
    SdkLog cfgInfoAppPlain (Logging_Init (some 3) (LogState.initial Nat))
        "m" [] = [⟨some (SinkPtr.user 3), ⟨"m", []⟩⟩] :=
  (C5_sink_binding cfgInfoAppPlain rfl (LogState.initial Nat) (some 3)
      "m" []).1 3 rfl

/-- Configuration used for the uninitialized-state scenarios: threshold
ERROR, no module name, all toggles off, kill switch off. -/
def cfgErrorPlain : Config :=
  ⟨Level.ERROR, Option.none, false, false, false, false⟩

/-- C6 counterexample: in the initial state — no Logging_Init performed —
it is not the case that every indirect call performed by an active
logging call goes through a callable (non-NULL) sink: the single
invocation of a LogError expansion dereferences the NULL `log_function`
pointer, so the call is not a silent no-op drop. -/
theorem C6_counterexample :
    ¬ (∀ inv ∈ LogError cfgErrorPlain (LogState.initial Nat)
          ⟨"main.c", "main", 3⟩ "x" [], inv.sink ≠ Option.none) := by
  decide

/-- C6 (amended): if no initialization call is performed, the sink
pointer is still NULL and an active logging call performs its one
indirect call through that NULL pointer (undefined behavior in C, a
crash on typical targets); the built-in no-op sink is bound only by an
explicit Logging_Init call. -/
theorem C6_uninitialized_null_call (cs : CallSite) (message : String)
    (args : List LogArg) :
    (LogState.initial σ).log_function = Option.none ∧
    (LogError cfgErrorPlain (LogState.initial σ) cs message args).map
        Invocation.sink = [Option.none] :=
  ⟨rfl, rfl⟩

/-- C8: Logging_GetLoggingLevelName maps each of the five defined
severity constants to its documented name, returns "UNKNOWN_LEVEL" for
every other integer, and is injective on the five constants. -/
theorem C8_level_names :
    (Logging_GetLoggingLevelName LOG_NONE = "LOG_NONE" ∧
      Logging_GetLoggingLevelName LOG_ERROR = "LOG_ERROR" ∧
      Logging_GetLoggingLevelName LOG_WARN = "LOG_WARN" ∧
      Logging_GetLoggingLevelName LOG_INFO = "LOG_INFO" ∧
      Logging_GetLoggingLevelName LOG_DEBUG = "LOG_DEBUG") ∧
    (∀ n : Int, n ≠ LOG_NONE → n ≠ LOG_ERROR → n ≠ LOG_WARN → n ≠ LOG_INFO →
      n ≠ LOG_DEBUG → Logging_GetLoggingLevelName n = "UNKNOWN_LEVEL") ∧
    (∀ a ∈ [LOG_NONE, LOG_ERROR, LOG_WARN, LOG_INFO, LOG_DEBUG],
      ∀ b ∈ [LOG_NONE, LOG_ERROR, LOG_WARN, LOG_INFO, LOG_DEBUG],
        Logging_GetLoggingLevelName a = Logging_GetLoggingLevelName b → a = b) := by
  refine ⟨by decide, ?_, by decide⟩
  intro n h0 h1 h2 h3 h4
  simp [Logging_GetLoggingLevelName, h0, h1, h2, h3, h4]

/-- Concrete instance of C8: the out-of-range input 7 maps to
"UNKNOWN_LEVEL". -/
theorem C8_level_names_witness :
    Logging_GetLoggingLevelName 7 = "UNKNOWN_LEVEL" :=
  C8_level_names.2.1 7 (by decide) (by decide) (by decide) (by decide)
    (by decide)

/-- C9: in the runtime-threshold variant, every Logging_Init call leaves
the module-level threshold state unchanged — the level write lands on the
shadowing parameter and never persists — while the sink pointer is
updated exactly as in the single-argument variant. -/
theorem C9_threshold_not_persisted (lvl : Int) (f : Option σ)
    (s : LogState2 σ) :
    (Logging_Init2 lvl f s).logging_level = s.logging_level ∧
    (Logging_Init2 lvl f s).log_function =
      (match f with
        | some g => some (SinkPtr.user g)
        | Option.none => some SinkPtr.defaultSink) := by
  cases f <;> simp [Logging_Init2]

/-- C10: both initialization variants leave the sink pointer non-null
for every argument, and every facade operation preserves non-nullness,
so after any first Logging_Init the pointer never returns to the unbound
state under any sequence of operations. -/
theorem C10_sink_nonnull_invariant :
    (∀ (σ : Type) (f : Option σ) (p : Option (SinkPtr σ)),
      (stepSink (Op.init f) p).isSome = true) ∧
    (∀ (σ : Type) (lvl : Int) (f : Option σ) (p : Option (SinkPtr σ)),
      (stepSink (Op.init2 lvl f) p).isSome = true) ∧
    (∀ (σ : Type) (op : Op σ) (p : Option (SinkPtr σ)),
      p.isSome = true → (stepSink op p).isSome = true) ∧
    (∀ (σ : Type) (ops : List (Op σ)) (p : Option (SinkPtr σ)),
      p.isSome = true →
        (ops.foldl (fun q op => stepSink op q) p).isSome = true) := by
  have hstep : ∀ (σ : Type) (op : Op σ) (p : Option (SinkPtr σ)),
      p.isSome = true → (stepSink op p).isSome = true := by
    intro σ op p hp
    cases op with
    | init f => cases f <;> simp [stepSink, Logging_Init]
    | init2 lvl f => cases f <;> simp [stepSink, Logging_Init2]
    | getVersion => exact hp
    | getLevelName n => exact hp
    | getTopLevel => exact hp
    | logCall c L cs m a => exact hp
  refine ⟨?_, ?_, hstep, ?_⟩
  · intro σ f p
    cases f <;> simp [stepSink, Logging_Init]
  · intro σ lvl f p
    cases f <;> simp [stepSink, Logging_Init2]
  · intro σ ops
    induction ops with
    | nil => intro p hp; exact hp
    | cons op rest ih =>
        intro p hp
        exact ih (stepSink op p) (hstep σ op p hp)

/-- Concrete instance of C10: a bound pointer stays bound across a
query and a further re-initialization. -/
theorem C10_sink_nonnull_invariant_witness :
    ((([Op.getVersion, Op.init (some 1)] : List (Op Nat)).foldl
        (fun q op => stepSink op q) (some (SinkPtr.user 0))).isSome = true) :=
  C10_sink_nonnull_invariant.2.2.2 Nat [Op.getVersion, Op.init (some 1)]
    (some (SinkPtr.user 0)) rfl

end Logging
